import Mathlib

/-!
Shallow embedding of the `flare-ai-kit` ecosystem connectors
(`src/flare_ai_kit/ecosystem/settings.py` and
`src/flare_ai_kit/ecosystem/applications/*.py`), together with a model of
the Chain Client base class (`flare_ai_kit/ecosystem/flare.py`, absent from
the provided sources) reconstructed from the specification.

Python exceptions are modelled by the `PyError` type; a method that can
raise returns `Except PyError α`.  RPC side effects a method performs are
recorded as an explicit `List Effect` trace.
-/

/-- Exception kinds raised by the embedded code.  Each protocol connector
has its own tagged error class in `flare_ai_kit.common`; `attributeError`
and `valueError` stand for the Python built-in exceptions of the same
names, and `validationError` for the pydantic validation failure that
wraps a `ValueError` raised in a model validator. -/
inductive PyError where
  | validationError (msg : String)
  | rpcError (msg : String)
  | txBuildError (msg : String)
  | txSendError (msg : String)
  | flareTxError (msg : String)
  | sceptreError (msg : String)
  | kineticError (msg : String)
  | cycloError (msg : String)
  | firelightError (msg : String)
  | stargateError (msg : String)
  | attributeError (msg : String)
  | valueError (msg : String)
  deriving Repr, DecidableEq

/-- An error is "tagged" when it is one of the library own error classes
(protocol errors or Chain Client error kinds), as opposed to a Python
built-in (`AttributeError`, `ValueError`) or a framework validation
failure. -/
def PyError.isTagged : PyError → Bool
  | .attributeError _ => false
  | .valueError _ => false
  | .validationError _ => false
  | _ => true

/-- RPC interactions a connector method can perform, in order. -/
inductive Effect where
  | ethCall (address fn : String)
  | getTransactionCount
  | estimateGas
  | signTx
  | sendRawTransaction
  deriving Repr, DecidableEq

/-- Effects that read or advance the account nonce, or use signing
material / account state: everything except a plain `eth_call` and gas
estimation. -/
def Effect.touchesNonceOrSigning : Effect → Bool
  | .getTransactionCount => true
  | .signTx => true
  | .sendRawTransaction => true
  | _ => false

/-- State-changing RPC requests (broadcast of a transaction). -/
def Effect.isStateChangingRpc : Effect → Bool
  | .sendRawTransaction => true
  | _ => false

/-- A web3 contract handle: an address paired with the name of the loaded
ABI (`w3.eth.contract(address=..., abi=load_abi(...))`). -/
structure BoundContract where
  address : String
  abi : String
  deriving Repr, DecidableEq

/-- `ContractAddresses` (settings.py:17-32): per-network table of optional
checksum addresses, every field defaulting to `None`. -/
structure ContractAddresses where
  sparkdex_universal_router : Option String := none
  sparkdex_swap_router : Option String := none
  kinetic_comptroller : Option String := none
  kinetic_ksflr : Option String := none
  sceptre_sflr : Option String := none
  cyclo_cysflr_vault : Option String := none
  cyclo_cysflr_receipt : Option String := none
  firelight_stxrp_vault : Option String := none
  stargate_token_messaging : Option String := none
  stargate_treasurer : Option String := none
  stargate_eth_oft : Option String := none
  stargate_usdc_oft : Option String := none
  stargate_usdt_oft : Option String := none
  deriving Repr, DecidableEq

/-- The fields of `ContractAddresses` in declaration order, as iterated by
`ContractAddresses.model_fields` in the validator (settings.py:86). -/
def ContractAddresses.fieldList (c : ContractAddresses) :
    List (String × Option String) :=
  [("sparkdex_universal_router", c.sparkdex_universal_router),
   ("sparkdex_swap_router", c.sparkdex_swap_router),
   ("kinetic_comptroller", c.kinetic_comptroller),
   ("kinetic_ksflr", c.kinetic_ksflr),
   ("sceptre_sflr", c.sceptre_sflr),
   ("cyclo_cysflr_vault", c.cyclo_cysflr_vault),
   ("cyclo_cysflr_receipt", c.cyclo_cysflr_receipt),
   ("firelight_stxrp_vault", c.firelight_stxrp_vault),
   ("stargate_token_messaging", c.stargate_token_messaging),
   ("stargate_treasurer", c.stargate_treasurer),
   ("stargate_eth_oft", c.stargate_eth_oft),
   ("stargate_usdc_oft", c.stargate_usdc_oft),
   ("stargate_usdt_oft", c.stargate_usdt_oft)]

/-- The default mainnet table (settings.py:39-79). -/
def flareDefaults : ContractAddresses where
  sparkdex_universal_router := some "0x0f3D8a38D4c74afBebc2c42695642f0e3acb15D3"
  sparkdex_swap_router := some "0x8a1E35F5c98C4E85B36B7B253222eE17773b2781"
  kinetic_comptroller := some "0xeC7e541375D70c37262f619162502dB9131d6db5"
  kinetic_ksflr := some "0x291487beC339c2fE5D83DD45F0a15EFC9Ac45656"
  sceptre_sflr := some "0x12e605bc104e93B45e1aD99F9e555f659051c2BB"
  cyclo_cysflr_vault := some "0x19831cfB53A0dbeAD9866C43557C1D48DfF76567"
  cyclo_cysflr_receipt := some "0xd387FC43E19a63036d8FCeD559E81f5dDeF7ef09"
  firelight_stxrp_vault := some "0x4C18Ff3C89632c3Dd62E796c0aFA5c07c4c1B2b3"
  stargate_token_messaging := some "0x45d417612e177672958dC0537C45a8f8d754Ac2E"
  stargate_treasurer := some "0x090194F1EEDc134A680e3b488aBB2D212dba8c01"
  stargate_eth_oft := some "0x8e8539e4CcD69123c623a106773F2b0cbbc58746"
  stargate_usdc_oft := some "0x77C71633C34C3784ede189d74223122422492a0f"
  stargate_usdt_oft := some "0x1C10CC06DC6D35970d1D53B2A23c76ef370d4135"

/-- `Contracts` (settings.py:35-90): the two per-network tables.  The
model validator runs at construction, so a value of this type only exists
after validation succeeded. -/
structure Contracts where
  flare : ContractAddresses
  coston2 : ContractAddresses
  deriving Repr, DecidableEq

/-- Construction of `Contracts`, running the `enforce_flare_addresses`
model validator (settings.py:82-90): iterate the fields in declaration
order and raise on the first mainnet field that is `None`. -/
def mkContracts (flare coston2 : ContractAddresses) : Except PyError Contracts :=
  match flare.fieldList.find? (fun p => p.2.isNone) with
  | some p => .error (.validationError (p.1 ++ " must be set for mainnet contracts"))
  | none => .ok ⟨flare, coston2⟩

/-- `EcosystemSettings` (settings.py:93-151), restricted to the fields the
connectors use. -/
structure EcosystemSettings where
  is_testnet : Bool := false
  max_retries : Nat := 3
  retry_delay : Nat := 5
  account_address : Option String := none
  account_private_key : Option String := none
  contracts : Contracts
  deriving Repr, DecidableEq

/-- The table-selection expression repeated in the connectors:
`settings.contracts.coston2 if settings.is_testnet else
settings.contracts.flare`. -/
def selectTable (s : EcosystemSettings) : ContractAddresses :=
  if s.is_testnet then s.contracts.coston2 else s.contracts.flare

/-- Python truthiness of an optional string (`if not ksflr_address`):
falsy when `None` or the empty string. -/
def optStrFalsy : Option String → Bool
  | none => true
  | some s => s.isEmpty

/-! ## Connector construction (`create` classmethods) -/

/-- `Sceptre.SFLR_CONTRACT` (sceptre.py:23): a hard-coded constant, not a
lookup in the settings tables. -/
def SFLR_CONTRACT : String := "0x12e605bc104e93B45e1aD99F9e555f659051c2BB"

/-- `Firelight.STXRP_VAULT` (firelight.py:23). -/
def STXRP_VAULT : String := "0x4C18Ff3C89632c3Dd62E796c0aFA5c07c4c1B2b3"

/-- `Cyclo.CYSFLR_VAULT` (cyclo.py:31). -/
def CYSFLR_VAULT : String := "0x19831cfB53A0dbeAD9866C43557C1D48DfF76567"

/-- `Cyclo.CYSFLR_RECEIPT` (cyclo.py:32). -/
def CYSFLR_RECEIPT : String := "0xd387FC43E19a63036d8FCeD559E81f5dDeF7ef09"

/-- Connector instance state: the optional bound contract handles set by
`__init__` to `None` and filled in by `create`. -/
structure SceptreState where
  sflr_contract : Option BoundContract := none
  deriving Repr, DecidableEq

structure FirelightState where
  vault_contract : Option BoundContract := none
  deriving Repr, DecidableEq

structure KineticState where
  ksflr_contract : Option BoundContract := none
  deriving Repr, DecidableEq

structure CycloState where
  vault_contract : Option BoundContract := none
  receipt_contract : Option BoundContract := none
  deriving Repr, DecidableEq

structure SparkDEXState where
  swap_router : Option BoundContract := none
  deriving Repr, DecidableEq

/-- `Sceptre.create` (sceptre.py:29-58): binds the hard-coded
`SFLR_CONTRACT` address, never consulting the settings tables. -/
def sceptreCreate (_s : EcosystemSettings) : Except PyError SceptreState :=
  .ok { sflr_contract := some ⟨SFLR_CONTRACT, "SceptreSFLR"⟩ }

/-- `Firelight.create` (firelight.py:29-58): binds the hard-coded
`STXRP_VAULT` address, never consulting the settings tables. -/
def firelightCreate (_s : EcosystemSettings) : Except PyError FirelightState :=
  .ok { vault_contract := some ⟨STXRP_VAULT, "FirelightVault"⟩ }

/-- `Cyclo.create` (cyclo.py:40-81): binds the hard-coded mainnet vault
and receipt addresses, never consulting the settings tables. -/
def cycloCreate (_s : EcosystemSettings) : Except PyError CycloState :=
  .ok { vault_contract := some ⟨CYSFLR_VAULT, "CycloVaultSFLR"⟩,
        receipt_contract := some ⟨CYSFLR_RECEIPT, "CycloReceiptSFLR"⟩ }

/-- `Kinetic.create` (kinetic.py:27-66): reads `kinetic_ksflr` from the
table selected by `is_testnet`; a falsy address raises a `KineticError`
which the surrounding `except` re-wraps in another `KineticError`. -/
def kineticCreate (s : EcosystemSettings) : Except PyError KineticState :=
  let ksflr_address :=
    if s.is_testnet then s.contracts.coston2.kinetic_ksflr
    else s.contracts.flare.kinetic_ksflr
  if optStrFalsy ksflr_address then
    .error (.kineticError ("Failed to initialize Kinetic connector: " ++
      "Kinetic ksFLR contract address not configured in settings"))
  else
    match ksflr_address with
    | some a => .ok { ksflr_contract := some ⟨a, "KineticKToken"⟩ }
    | none => .error (.kineticError ("Failed to initialize Kinetic connector: " ++
        "Kinetic ksFLR contract address not configured in settings"))

/-- `SparkDEX.create` (sparkdex.py:32-62): reads `sparkdex_swap_router`
from the table selected by `is_testnet`; a falsy address raises
`FlareTxError` directly (no surrounding try/except). -/
def sparkdexCreate (s : EcosystemSettings) : Except PyError SparkDEXState :=
  let router_address :=
    if s.is_testnet then s.contracts.coston2.sparkdex_swap_router
    else s.contracts.flare.sparkdex_swap_router
  if optStrFalsy router_address then
    .error (.flareTxError "SparkDEX SwapRouter address not configured")
  else
    match router_address with
    | some a => .ok { swap_router := some ⟨a, "SparkDEXRouter"⟩ }
    | none => .error (.flareTxError "SparkDEX SwapRouter address not configured")

/-- `Stargate.create` (stargate.py:41-86): verifies the five stargate
addresses in the table selected by `is_testnet` are all truthy (it binds
no contract handle); a failure raises a `StargateError` which the
surrounding `except` re-wraps. -/
def stargateCreate (s : EcosystemSettings) : Except PyError Unit :=
  let contracts := selectTable s
  if optStrFalsy contracts.stargate_token_messaging ||
     optStrFalsy contracts.stargate_treasurer ||
     optStrFalsy contracts.stargate_eth_oft ||
     optStrFalsy contracts.stargate_usdc_oft ||
     optStrFalsy contracts.stargate_usdt_oft then
    .error (.stargateError ("Failed to initialize Stargate connector: " ++
      "Stargate contract addresses not configured in settings"))
  else
    .ok ()

/-! ## Read-only connector methods

Each read is modelled as a function of the instance state, its arguments,
and the value the chain would return for the underlying `eth_call`; the
result is the RPC effect trace paired with the outcome. -/

/-- `Sceptre.get_sflr_balance` (sceptre.py:103-127). -/
def sceptreGetSflrBalance (st : SceptreState) (_address : String) (chainAns : Int) :
    List Effect × Except PyError Int :=
  match st.sflr_contract with
  | none => ([], .error (.sceptreError "Sceptre contract not initialized"))
  | some c => ([.ethCall c.address "balanceOf"], .ok chainAns)

/-- `Sceptre.get_total_pooled_flr` (sceptre.py:129-150). -/
def sceptreGetTotalPooledFlr (st : SceptreState) (chainAns : Int) :
    List Effect × Except PyError Int :=
  match st.sflr_contract with
  | none => ([], .error (.sceptreError "Sceptre contract not initialized"))
  | some c => ([.ethCall c.address "getTotalPooledFlr"], .ok chainAns)

/-- `Firelight.get_stxrp_balance` (firelight.py:173-197). -/
def firelightGetStxrpBalance (st : FirelightState) (_address : String) (chainAns : Int) :
    List Effect × Except PyError Int :=
  match st.vault_contract with
  | none => ([], .error (.firelightError "Firelight vault contract not initialized"))
  | some c => ([.ethCall c.address "balanceOf"], .ok chainAns)

/-- `Firelight.get_total_assets` (firelight.py:199-220). -/
def firelightGetTotalAssets (st : FirelightState) (chainAns : Int) :
    List Effect × Except PyError Int :=
  match st.vault_contract with
  | none => ([], .error (.firelightError "Firelight vault contract not initialized"))
  | some c => ([.ethCall c.address "totalAssets"], .ok chainAns)

/-- `Kinetic.get_balance` (kinetic.py:146-170). -/
def kineticGetBalance (st : KineticState) (_address : String) (chainAns : Int) :
    List Effect × Except PyError Int :=
  match st.ksflr_contract with
  | none => ([], .error (.kineticError "Kinetic contract not initialized"))
  | some c => ([.ethCall c.address "balanceOf"], .ok chainAns)

/-- `Kinetic.get_exchange_rate` (kinetic.py:203-224). -/
def kineticGetExchangeRate (st : KineticState) (chainAns : Int) :
    List Effect × Except PyError Int :=
  match st.ksflr_contract with
  | none => ([], .error (.kineticError "Kinetic contract not initialized"))
  | some c => ([.ethCall c.address "exchangeRateCurrent"], .ok chainAns)

/-- `Cyclo.get_cysflr_balance` (cyclo.py:204-233); the surrounding
try/except wraps any failure of the call itself in a `CycloError`, but a
successful call is returned as-is. -/
def cycloGetCysflrBalance (st : CycloState) (_address : String) (chainAns : Int) :
    List Effect × Except PyError Int :=
  match st.vault_contract with
  | none => ([], .error (.cycloError "Cyclo vault contract not initialized"))
  | some c => ([.ethCall c.address "balanceOf"], .ok chainAns)

/-- `SparkDEX.get_factory_address` (sparkdex.py:222-244). -/
def sparkdexGetFactoryAddress (st : SparkDEXState) (chainAns : String) :
    List Effect × Except PyError String :=
  match st.swap_router with
  | none => ([], .error (.attributeError
      "SparkDEX instance not fully initialized. Use SparkDEX.create()."))
  | some c => ([.ethCall c.address "factory"], .ok chainAns)

/-! ## Write connector methods

The write pipeline below the connector (`Flare.build_transaction`,
`Flare.sign_and_send_transaction`, `Flare._build_sign_send_tx` in the
absent `flare.py`) is supplied as an external outcome record `TxExt`:
the result each base primitive would produce, and the RPC effect trace it
would emit.  The connector-level control flow around those primitives is
translated from the sources. -/

/-- An unsigned transaction envelope, keeping the fields the claims are
about. -/
structure UnsignedTx where
  sender : String
  nonce : Nat
  gas : Nat
  deriving Repr, DecidableEq

/-- Outcomes of the Chain Client primitives a connector write invokes.
`build` may return `none` because the connectors guard `if not tx`;
likewise `send` for `if not tx_hash`. -/
structure TxExt where
  build : Except PyError (Option UnsignedTx)
  send : Except PyError (Option String)
  buildFx : List Effect
  sendFx : List Effect

/-- `Sceptre.stake_flr` (sceptre.py:60-101). -/
def sceptreStakeFlr (st : SceptreState) (_amount : Int) (ext : TxExt) :
    List Effect × Except PyError String :=
  match st.sflr_contract with
  | none => ([], .error (.sceptreError "Sceptre contract not initialized"))
  | some _ =>
    match ext.build with
    | .error e => (ext.buildFx, .error e)
    | .ok none => (ext.buildFx, .error (.sceptreError "Failed to build stake transaction"))
    | .ok (some _) =>
      match ext.send with
      | .error e => (ext.buildFx ++ ext.sendFx, .error e)
      | .ok none =>
          (ext.buildFx ++ ext.sendFx, .error (.sceptreError "Failed to send stake transaction"))
      | .ok (some h) => (ext.buildFx ++ ext.sendFx, .ok h)

/-- `Kinetic.supply` (kinetic.py:68-105). -/
def kineticSupply (st : KineticState) (_amount : Int) (ext : TxExt) :
    List Effect × Except PyError String :=
  match st.ksflr_contract with
  | none => ([], .error (.kineticError "Kinetic contract not initialized"))
  | some _ =>
    match ext.build with
    | .error e => (ext.buildFx, .error e)
    | .ok none => (ext.buildFx, .error (.kineticError "Failed to build supply transaction"))
    | .ok (some _) =>
      match ext.send with
      | .error e => (ext.buildFx ++ ext.sendFx, .error e)
      | .ok none =>
          (ext.buildFx ++ ext.sendFx, .error (.kineticError "Failed to send supply transaction"))
      | .ok (some h) => (ext.buildFx ++ ext.sendFx, .ok h)

/-- `Cyclo.deposit_sflr` (cyclo.py:83-140): the `not initialized` guard
sits before the try block; inside the try, every failure `e` is re-raised
as `CycloError("Failed to deposit sFLR to Cyclo: " + e)`. -/
def cycloDepositSflr (st : CycloState) (_assets : Int) (_recipient : String)
    (ext : TxExt) : List Effect × Except PyError String :=
  match st.vault_contract with
  | none => ([], .error (.cycloError "Cyclo vault contract not initialized"))
  | some _ =>
    match ext.build with
    | .error e =>
        (ext.buildFx, .error (.cycloError ("Failed to deposit sFLR to Cyclo: " ++ reprStr e)))
    | .ok none =>
        (ext.buildFx, .error (.cycloError
          ("Failed to deposit sFLR to Cyclo: " ++ "Failed to build deposit transaction")))
    | .ok (some _) =>
      match ext.send with
      | .error e =>
          (ext.buildFx ++ ext.sendFx,
           .error (.cycloError ("Failed to deposit sFLR to Cyclo: " ++ reprStr e)))
      | .ok none =>
          (ext.buildFx ++ ext.sendFx, .error (.cycloError
            ("Failed to deposit sFLR to Cyclo: " ++ "Failed to send deposit transaction")))
      | .ok (some h) => (ext.buildFx ++ ext.sendFx, .ok h)

/-- The nonce `Firelight.stake_xrp` places in the unsigned transaction
(firelight.py:89): exactly the value `eth_getTransactionCount` returns at
the moment of the read, with no local reservation or increment. -/
def firelightTxNonce (txCountAtRead : Nat) : Nat := txCountAtRead

/-- `Firelight.stake_xrp` (firelight.py:60-96): builds the transaction
dict itself, resolving the nonce by a bare `get_transaction_count` read,
then hands off to `_build_sign_send_tx`. -/
def firelightStakeXrp (st : FirelightState) (_amount : Int) (txCountAtRead : Nat)
    (send : Except PyError String) (sendFx : List Effect) :
    List Effect × Except PyError (UnsignedTx × String) :=
  match st.vault_contract with
  | none => ([], .error (.firelightError "Firelight vault contract not initialized"))
  | some _ =>
    let tx : UnsignedTx := ⟨"account", firelightTxNonce txCountAtRead, 0⟩
    match send with
    | .error e => ([.getTransactionCount] ++ sendFx, .error e)
    | .ok h => ([.getTransactionCount] ++ sendFx, .ok (tx, h))

/-- `SparkDEX.swap_exact_input_single` (sparkdex.py:64-142): guards raise
the Python built-ins `AttributeError` (router handle unset) and
`ValueError` (account unset) before any network interaction. -/
def sparkdexSwapExactInputSingle (st : SparkDEXState) (account : Option String)
    (ext : TxExt) : List Effect × Except PyError String :=
  match st.swap_router with
  | none => ([], .error (.attributeError
      "SparkDEX instance not fully initialized. Use SparkDEX.create()."))
  | some _ =>
    if optStrFalsy account then
      ([], .error (.valueError "Account not initialized"))
    else
      match ext.build with
      | .error e => (ext.buildFx, .error e)
      | .ok none => (ext.buildFx, .error (.flareTxError "Failed to build swap transaction"))
      | .ok (some _) =>
        match ext.send with
        | .error e => (ext.buildFx ++ ext.sendFx, .error e)
        | .ok none =>
            (ext.buildFx ++ ext.sendFx, .error (.flareTxError "Failed to send swap transaction"))
        | .ok (some h) => (ext.buildFx ++ ext.sendFx, .ok h)

/-! ## Stargate lookup methods (stargate.py:88-172), pure code -/

/-- `Stargate.CHAINS` (stargate.py:24-35). -/
def CHAINS : List (String × Nat) :=
  [("ethereum", 30101), ("bnb_chain", 30102), ("avalanche", 30106),
   ("polygon", 30109), ("arbitrum", 30110), ("optimism", 30111),
   ("base", 30184), ("linea", 30183), ("scroll", 30214), ("mantle", 30181)]

/-- Python `str.upper()` restricted to its per-character action
(`token.upper()` in stargate.py:112): uppercase every character. -/
def strUpper (s : String) : String := String.mk (s.data.map Char.toUpper)

/-- Python `str.lower()` (`chain.lower()` in stargate.py:140). -/
def strLower (s : String) : String := String.mk (s.data.map Char.toLower)

/-- Python `str(x)` on an optional address: `str(None)` is the string
`"None"`. -/
def strOfOptAddr : Option String → String
  | none => "None"
  | some a => a

/-- `Stargate.get_oft_address` (stargate.py:88-120). -/
def getOftAddress (s : EcosystemSettings) (token : String) : Except PyError String :=
  let contracts := selectTable s
  let token_upper := strUpper token
  if token_upper = "ETH" then .ok (strOfOptAddr contracts.stargate_eth_oft)
  else if token_upper = "USDC" then .ok (strOfOptAddr contracts.stargate_usdc_oft)
  else if token_upper = "USDT" then .ok (strOfOptAddr contracts.stargate_usdt_oft)
  else .error (.stargateError ("Unsupported token: " ++ token ++ ". Supported: ETH, USDC, USDT"))

/-- `Stargate.get_chain_endpoint` (stargate.py:122-144). -/
def getChainEndpoint (chain : String) : Except PyError Nat :=
  let chain_lower := strLower chain
  match CHAINS.lookup chain_lower with
  | some e => .ok e
  | none => .error (.stargateError ("Unsupported chain: " ++ chain ++ ". Supported: " ++
      String.intercalate ", " (CHAINS.map (·.1))))

/-- `Stargate.get_supported_tokens` (stargate.py:146-158). -/
def getSupportedTokens : List String := ["ETH", "USDC", "USDT"]

/-- `Stargate.get_supported_chains` (stargate.py:160-172). -/
def getSupportedChains : List String := CHAINS.map (·.1)

/-! ## Chain Client model (spec-modelled)

`flare_ai_kit/ecosystem/flare.py` is not among the provided sources; the
definitions in this section are reconstructed from sections 4.3 and 7 of
the specification. -/

/-- Outcome of one RPC attempt: transient failure (network timeout, 5xx,
node sync lag), non-transient failure (revert, insufficient funds, bad
signature) with its reason, or success. -/
inductive RpcOutcome (α : Type) where
  | transient
  | fatal (reason : String)
  | ok (a : α)
  deriving Repr, DecidableEq

/-- Modelled from the spec: the retry loop of the Chain Client
(`flare.py` is absent from the sources).  Section 4.3: transient RPC
failures are retried up to `max_retries` times with a fixed `retry_delay`
between attempts; non-transient failures are not retried and propagate
immediately.  `resp i` is what the RPC returns on attempt number `i`
(0-based); the result is paired with the number of attempts consumed. -/
def retryRpc {α : Type} (resp : Nat → RpcOutcome α) :
    Nat → Nat → Except PyError α × Nat
  | 0, used => (.error (.rpcError "RPC failed after max retries"), used)
  | fuel + 1, i =>
    match resp i with
    | .ok a => (.ok a, i + 1)
    | .fatal reason => (.error (.txBuildError reason), i + 1)
    | .transient => retryRpc resp fuel (i + 1)

/-- Run the retry loop with a budget of `max_retries` attempts in total,
starting at attempt 0. -/
def runRetry {α : Type} (max_retries : Nat) (resp : Nat → RpcOutcome α) :
    Except PyError α × Nat :=
  retryRpc resp max_retries 0

/-- Modelled from the spec: `Flare.build_transaction` (`flare.py` is
absent from the sources).  Section 4.3: it resolves the sender nonce,
estimates gas, and fails with `TxBuildError` when the account has no
credential configured, before issuing any RPC. -/
def buildTransaction (account_private_key : Option String) (sender : String)
    (chainNonce gasEstimate : Nat) : List Effect × Except PyError UnsignedTx :=
  match account_private_key with
  | none => ([], .error (.txBuildError "Account private key not configured"))
  | some _ =>
      ([.getTransactionCount, .estimateGas], .ok ⟨sender, chainNonce, gasEstimate⟩)

/-! ## Nonce assignment under logically-concurrent writes

`Firelight.stake_xrp` resolves each transaction nonce by a bare
`w3.eth.get_transaction_count` read (firelight.py:89).  The chain count
only advances when a transaction is mined, which is external to the
connector.  An execution of `N` logically-concurrent calls is a sequence
of events: a `read t` event is call `t` performing its nonce read, and a
`mine` event is the chain mining one pending transaction (incrementing
the count). -/

inductive NonceEv where
  | read (task : Nat)
  | mine
  deriving Repr, DecidableEq

/-- Run an event schedule from a chain transaction count, producing the
(task, nonce) pairs recorded by the reads; each read places
`firelightTxNonce` of the current count into that call's transaction. -/
def runNonceReads (count : Nat) : List NonceEv → List (Nat × Nat)
  | [] => []
  | .read t :: evs => (t, firelightTxNonce count) :: runNonceReads count evs
  | .mine :: evs => runNonceReads (count + 1) evs

/-- The nonces the `N` calls place into their unsigned transactions,
given the pre-call transaction count `n0` and a schedule. -/
def noncesOf (n0 : Nat) (evs : List NonceEv) : List Nat :=
  (runNonceReads n0 evs).map (·.2)

/-- The property claimed for the nonce set: the multiset of assigned
nonces is exactly `n0, n0+1, ..., n0+N-1` (no duplicates, no gaps). -/
def exactNonceRange (n0 : Nat) (nonces : List Nat) : Prop :=
  (nonces : Multiset Nat) = ((List.range' n0 nonces.length : List Nat) : Multiset Nat)

/-- A fully serialized schedule for `n` calls: each transaction is mined
before the next call performs its nonce read. -/
def serializedSchedule : Nat → List NonceEv
  | 0 => []
  | n + 1 => .read 0 :: .mine :: (serializedSchedule n).map
      (fun e => match e with | .read t => .read (t + 1) | .mine => .mine)

/-! ## Concrete fixtures -/

/-- The default `Contracts` value (default mainnet table, empty coston2
table), i.e. the value `Contracts()` validates to. -/
def defaultContracts : Contracts := ⟨flareDefaults, {}⟩

/-- Settings with default contracts, mainnet selected. -/
def mainnetSettings : EcosystemSettings := { contracts := defaultContracts }

/-- Settings with default contracts, testnet (coston2) selected. -/
def testnetSettings : EcosystemSettings :=
  { is_testnet := true, contracts := defaultContracts }

/-- Sanity: the default construction validates successfully. -/
theorem mkContracts_default_ok : mkContracts flareDefaults {} = .ok defaultContracts := rfl

/-- All fields of a table are populated. -/
def allFieldsSet (c : ContractAddresses) : Prop :=
  ∀ p ∈ c.fieldList, p.2.isSome = true

/-- C2: constructing the `Contracts` configuration object succeeds exactly
when every mainnet (flare) address field is populated; any unset mainnet
field makes construction itself fail (the `enforce_flare_addresses` model
validator raises at load time, before any connector method exists to be
invoked). -/
theorem C2_mainnet_table_failfast (fl c2 : ContractAddresses) :
    (∃ c, mkContracts fl c2 = .ok c) ↔ allFieldsSet fl := by
  unfold mkContracts allFieldsSet
  cases h : fl.fieldList.find? (fun p => p.2.isNone) with
  | none =>
    simp only [Except.ok.injEq, exists_eq]
    constructor
    · intro _ p hp
      have := List.find?_eq_none.mp h p hp
      simpa [Option.isNone_iff_eq_none, Option.isSome_iff_ne_none] using this
    · intro _; exact ⟨⟨fl, c2⟩, rfl⟩
  | some p =>
    constructor
    · rintro ⟨c, hc⟩; cases hc
    · intro hall
      have hmem := List.mem_of_find?_eq_some h
      have hpred := List.find?_some h
      have := hall p hmem
      simp only [Option.isNone_iff_eq_none, decide_eq_true_eq] at hpred
      rw [hpred] at this
      cases this

/-- C2 witness: with the `sceptre_sflr` mainnet field unset, construction
fails; with the full default mainnet table it succeeds. -/
theorem C2_witness :
    (¬ ∃ c, mkContracts { flareDefaults with sceptre_sflr := none } {} = .ok c) ∧
    (∃ c, mkContracts flareDefaults {} = .ok c) := by
  constructor
  · intro hex
    have := (C2_mainnet_table_failfast { flareDefaults with sceptre_sflr := none } {}).mp hex
    have h5 := this ("sceptre_sflr", none) (by decide)
    cases h5
  · exact (C2_mainnet_table_failfast flareDefaults {}).mpr (by intro p hp; fin_cases hp <;> rfl)

/-- C7: with testnet selected, a required contract address missing from
the coston2 table makes the table-reading connectors fail their first use
(the `create` initializer) with their own error class carrying a
"not configured" message — the guard fires before the address is ever
dereferenced, so no null-pointer-style fault can occur. -/
theorem C7_testnet_missing_address_clear_error (s : EcosystemSettings)
    (h : s.is_testnet = true) :
    (optStrFalsy s.contracts.coston2.kinetic_ksflr = true →
      kineticCreate s = .error (.kineticError ("Failed to initialize Kinetic connector: " ++
        "Kinetic ksFLR contract address not configured in settings"))) ∧
    (optStrFalsy s.contracts.coston2.sparkdex_swap_router = true →
      sparkdexCreate s = .error (.flareTxError "SparkDEX SwapRouter address not configured")) ∧
    (optStrFalsy s.contracts.coston2.stargate_eth_oft = true →
      stargateCreate s = .error (.stargateError ("Failed to initialize Stargate connector: " ++
        "Stargate contract addresses not configured in settings"))) := by
  refine ⟨fun hf => ?_, fun hf => ?_, fun hf => ?_⟩
  · simp [kineticCreate, h, hf]
  · simp [sparkdexCreate, h, hf]
  · simp [stargateCreate, selectTable, h, hf]

/-- C7 witness: on the default settings with testnet selected (empty
coston2 table), each of the three table-reading connectors fails with its
"not configured" error. -/
theorem C7_witness :
    kineticCreate testnetSettings = .error (.kineticError
      ("Failed to initialize Kinetic connector: " ++
       "Kinetic ksFLR contract address not configured in settings")) ∧
    sparkdexCreate testnetSettings =
      .error (.flareTxError "SparkDEX SwapRouter address not configured") ∧
    stargateCreate testnetSettings = .error (.stargateError
      ("Failed to initialize Stargate connector: " ++
       "Stargate contract addresses not configured in settings")) :=
  have h := C7_testnet_missing_address_clear_error testnetSettings rfl
  ⟨h.1 rfl, h.2.1 rfl, h.2.2 rfl⟩

/-- C9: Stargate token and chain lookup is total over the supported names
and case-normalizing: any string uppercasing to ETH/USDC/USDT maps to the
string form of the corresponding OFT field of the table selected by
`is_testnet`, any other string raises `StargateError`; any string
lowercasing to a `CHAINS` key maps to its endpoint ID, any other string
raises `StargateError`; and every advertised supported token and chain is
accepted. -/
theorem C9_stargate_lookup_total (s : EcosystemSettings) :
    (∀ t : String, strUpper t = "ETH" →
      getOftAddress s t = .ok (strOfOptAddr (selectTable s).stargate_eth_oft)) ∧
    (∀ t : String, strUpper t = "USDC" →
      getOftAddress s t = .ok (strOfOptAddr (selectTable s).stargate_usdc_oft)) ∧
    (∀ t : String, strUpper t = "USDT" →
      getOftAddress s t = .ok (strOfOptAddr (selectTable s).stargate_usdt_oft)) ∧
    (∀ t : String, strUpper t ≠ "ETH" → strUpper t ≠ "USDC" → strUpper t ≠ "USDT" →
      ∃ m, getOftAddress s t = .error (.stargateError m)) ∧
    (∀ c : String, ∀ e, CHAINS.lookup (strLower c) = some e → getChainEndpoint c = .ok e) ∧
    (∀ c : String, CHAINS.lookup (strLower c) = none →
      ∃ m, getChainEndpoint c = .error (.stargateError m)) ∧
    (∀ t ∈ getSupportedTokens, (getOftAddress s t).isOk = true) ∧
    (∀ c ∈ getSupportedChains, (getChainEndpoint c).isOk = true) := by
  refine ⟨fun t ht => ?_, fun t ht => ?_, fun t ht => ?_, fun t h1 h2 h3 => ?_,
    fun c e hc => ?_, fun c hc => ?_, fun t ht => ?_, fun c hc => ?_⟩
  · simp [getOftAddress, ht]
  · simp [getOftAddress, ht]
  · simp [getOftAddress, ht]
  · exact ⟨"Unsupported token: " ++ t ++ ". Supported: ETH, USDC, USDT",
      by simp [getOftAddress, h1, h2, h3]⟩
  · simp [getChainEndpoint, hc]
  · exact ⟨"Unsupported chain: " ++ c ++ ". Supported: " ++
      String.intercalate ", " (CHAINS.map (·.1)),
      by simp [getChainEndpoint, hc]⟩
  · fin_cases ht <;> simp [getOftAddress, Except.isOk, Except.toBool, show strUpper "ETH" = "ETH" from by decide, show strUpper "USDC" = "USDC" from by decide, show strUpper "USDT" = "USDT" from by decide]
  · fin_cases hc <;> decide

/-- C9 witness: a lowercase token and a capitalized chain name are both
accepted and resolve against the mainnet table. -/
theorem C9_witness :
    getOftAddress mainnetSettings "usdc" =
      .ok "0x77C71633C34C3784ede189d74223122422492a0f" ∧
    getChainEndpoint "Arbitrum" = .ok 30110 ∧
    (∃ m, getOftAddress mainnetSettings "DOGE" = .error (.stargateError m)) :=
  have h := C9_stargate_lookup_total mainnetSettings
  ⟨(h.2.1 "usdc" (by decide)).trans (by rfl),
   h.2.2.2.2.1 "Arbitrum" 30110 (by decide),
   h.2.2.2.1 "DOGE" (by decide) (by decide) (by decide)⟩

/-- C3 counterexample: with testnet selected (default tables), `Sceptre.create`
succeeds and binds the hard-coded mainnet sFLR address even though the
authoritative (coston2) table has `sceptre_sflr = None` — the connector does
not take its bound address from the table selected by `is_testnet`. -/
theorem C3_counterexample :
    ¬ (∀ st, sceptreCreate testnetSettings = .ok st →
        st.sflr_contract.map (·.address) = (selectTable testnetSettings).sceptre_sflr) := by
  intro h
  have hc := h { sflr_contract := some ⟨SFLR_CONTRACT, "SceptreSFLR"⟩ } rfl
  simp [selectTable, testnetSettings, defaultContracts] at hc

/-- C3 amended: `Kinetic.create` and `SparkDEX.create` do bind the address
from the table selected by `is_testnet`, while `Sceptre.create`,
`Firelight.create` and `Cyclo.create` bind fixed hard-coded mainnet
addresses regardless of the flag. -/
theorem C3_amended_table_usage :
    (∀ s st, kineticCreate s = .ok st →
      st.ksflr_contract.map (·.address) = (selectTable s).kinetic_ksflr) ∧
    (∀ s st, sparkdexCreate s = .ok st →
      st.swap_router.map (·.address) = (selectTable s).sparkdex_swap_router) ∧
    (∀ s st, sceptreCreate s = .ok st →
      st.sflr_contract.map (·.address) = some SFLR_CONTRACT) ∧
    (∀ s st, firelightCreate s = .ok st →
      st.vault_contract.map (·.address) = some STXRP_VAULT) ∧
    (∀ s st, cycloCreate s = .ok st →
      st.vault_contract.map (·.address) = some CYSFLR_VAULT ∧
      st.receipt_contract.map (·.address) = some CYSFLR_RECEIPT) := by
  refine ⟨fun s st h => ?_, fun s st h => ?_, fun s st h => ?_, fun s st h => ?_,
    fun s st h => ?_⟩
  · unfold kineticCreate at h
    unfold selectTable
    cases hts : s.is_testnet
    all_goals simp only [hts, Bool.false_eq_true, if_true, if_false, ite_true, ite_false] at h ⊢
    all_goals split at h
    any_goals cases h
    all_goals split at h
    any_goals cases h
    all_goals rename_i a heq
    all_goals simp [heq]
  · unfold sparkdexCreate at h
    unfold selectTable
    cases hts : s.is_testnet
    all_goals simp only [hts, Bool.false_eq_true, if_true, if_false, ite_true, ite_false] at h ⊢
    all_goals split at h
    any_goals cases h
    all_goals split at h
    any_goals cases h
    all_goals rename_i a heq
    all_goals simp [heq]
  · cases h; rfl
  · cases h; rfl
  · cases h; exact ⟨rfl, rfl⟩

/-- C3 witness: on mainnet settings, `Kinetic.create` binds exactly the
`kinetic_ksflr` entry of the selected (flare) table. -/
theorem C3_witness :
    ({ ksflr_contract :=
        some ⟨"0x291487beC339c2fE5D83DD45F0a15EFC9Ac45656", "KineticKToken"⟩ } :
      KineticState).ksflr_contract.map (·.address) =
      (selectTable mainnetSettings).kinetic_ksflr :=
  C3_amended_table_usage.1 mainnetSettings
    { ksflr_contract :=
        some ⟨"0x291487beC339c2fE5D83DD45F0a15EFC9Ac45656", "KineticKToken"⟩ } rfl

/-- C1: evaluation of the nonce-assignment model at the failing input.
`Firelight.stake_xrp` gives each transaction the bare
`eth_getTransactionCount` value read at call time (firelight.py:89); with
pre-call count 5, the two-call schedule in which both reads happen before
either transaction is mined assigns nonce 5 to both transactions, not the
claimed duplicate-free set 5, 6.  Under the fully serialized schedule
(each transaction mined before the next read) the claimed property does
hold. -/
theorem C1_duplicate_nonce_at_failing_input :
    noncesOf 5 [.read 0, .read 1] = [5, 5] ∧
    ¬ exactNonceRange 5 (noncesOf 5 [.read 0, .read 1]) ∧
    exactNonceRange 5 (noncesOf 5 (serializedSchedule 2)) := by
  refine ⟨rfl, ?_, ?_⟩
  · intro h
    rw [show noncesOf 5 [.read 0, .read 1] = [5, 5] from rfl] at h
    unfold exactNonceRange at h
    simp only [List.length_cons, List.length_nil] at h
    have hperm := Multiset.coe_eq_coe.mp h
    have hnd : (List.range' 5 2).Nodup := by decide
    have : ([5, 5] : List Nat).Nodup := hperm.nodup_iff.mpr hnd
    simp at this
  · unfold exactNonceRange
    rfl

/-- Helper: running the retry loop from attempt `i`, if attempts
`i, ..., i+k-1` are transient and attempt `i+k` succeeds within the
remaining fuel, the loop returns that success having used `i+k+1`
attempts in total. -/
theorem retryRpc_ok_of_transient {α : Type} (resp : Nat → RpcOutcome α) :
    ∀ (k fuel i : Nat) (a : α), k < fuel →
      (∀ j, j < k → resp (i + j) = .transient) → resp (i + k) = .ok a →
      retryRpc resp fuel i = (.ok a, i + k + 1) := by
  intro k
  induction k with
  | zero =>
    intro fuel i a hk ht ho
    obtain ⟨fuel', rfl⟩ : ∃ f, fuel = f + 1 := ⟨fuel - 1, by omega⟩
    simp only [Nat.add_zero] at ho
    simp [retryRpc, ho]
  | succ k ih =>
    intro fuel i a hk ht ho
    obtain ⟨fuel', rfl⟩ : ∃ f, fuel = f + 1 := ⟨fuel - 1, by omega⟩
    have h0 : resp i = .transient := by simpa using ht 0 (by omega)
    have hstep : retryRpc resp (fuel' + 1) i = retryRpc resp fuel' (i + 1) := by
      simp [retryRpc, h0]
    rw [hstep]
    have ht' : ∀ j, j < k → resp (i + 1 + j) = .transient := by
      intro j hj
      have he : i + 1 + j = i + (j + 1) := by omega
      rw [he]
      exact ht (j + 1) (by omega)
    have ho' : resp (i + 1 + k) = .ok a := by
      have he : i + 1 + k = i + (k + 1) := by omega
      rw [he]; exact ho
    have := ih fuel' (i + 1) a (by omega) ht' ho'
    rw [this]
    congr 1
    omega

/-- C4: retry policy of the Chain Client (spec-modelled, `flare.py` is
absent from the sources).  A run of transient failures is retried, and a
success on attempt `k < max_retries` is returned having consumed exactly
`k+1` attempts, within the `max_retries` budget; a non-transient failure
on the first attempt propagates immediately, consuming exactly one
attempt and no part of the remaining retry budget. -/
theorem C4_retry_policy {α : Type} (maxR : Nat) (resp : Nat → RpcOutcome α) :
    (∀ k a, k < maxR → (∀ j, j < k → resp j = .transient) → resp k = .ok a →
      runRetry maxR resp = (.ok a, k + 1)) ∧
    (∀ reason, 0 < maxR → resp 0 = .fatal reason →
      runRetry maxR resp = (.error (.txBuildError reason), 1)) := by
  constructor
  · intro k a hk ht ho
    have := retryRpc_ok_of_transient resp k maxR 0 a hk
      (fun j hj => by simpa using ht j hj) (by simpa using ho)
    simpa [runRetry] using this
  · intro reason hpos h0
    obtain ⟨m, rfl⟩ : ∃ m, maxR = m + 1 := ⟨maxR - 1, by omega⟩
    simp [runRetry, retryRpc, h0]

/-- The RPC behaviour of spec scenario 7: `eth_estimateGas` times out
twice, then returns 21000. -/
def respTimeoutTwice : Nat → RpcOutcome Nat :=
  fun j => if j < 2 then .transient else .ok 21000

/-- C4 witness: with `max_retries = 3`, the twice-transient RPC succeeds
on the third attempt with exactly 3 attempts consumed, and an
always-reverting RPC fails after exactly one attempt. -/
theorem C4_witness :
    runRetry 3 respTimeoutTwice = (.ok 21000, 3) ∧
    runRetry 3 (fun _ => (RpcOutcome.fatal "execution reverted" : RpcOutcome Nat)) =
      (.error (.txBuildError "execution reverted"), 1) :=
  ⟨(C4_retry_policy 3 respTimeoutTwice).1 2 21000 (by omega)
      (fun j hj => by interval_cases j <;> rfl) rfl,
   (C4_retry_policy 3 (fun _ => (RpcOutcome.fatal "execution reverted" : RpcOutcome Nat))).2
      "execution reverted" (by omega) rfl⟩

/-- A trace is read-only when none of its effects reads or advances the
nonce or uses signing material / account state. -/
def readOnlyTrace (l : List Effect) : Bool :=
  l.all (fun e => !e.touchesNonceOrSigning)

/-- C5: every embedded read-only connector method produces a trace that
never reads or mutates the nonce counter and never touches signing
material or account state, whatever the instance state, arguments and
chain answer. -/
theorem C5_reads_never_touch_nonce_or_signing (sSt : SceptreState)
    (fSt : FirelightState) (kSt : KineticState) (cSt : CycloState)
    (dSt : SparkDEXState) (addr : String) (v : Int) (w : String) :
    readOnlyTrace (sceptreGetSflrBalance sSt addr v).1 = true ∧
    readOnlyTrace (sceptreGetTotalPooledFlr sSt v).1 = true ∧
    readOnlyTrace (firelightGetStxrpBalance fSt addr v).1 = true ∧
    readOnlyTrace (firelightGetTotalAssets fSt v).1 = true ∧
    readOnlyTrace (kineticGetBalance kSt addr v).1 = true ∧
    readOnlyTrace (kineticGetExchangeRate kSt v).1 = true ∧
    readOnlyTrace (cycloGetCysflrBalance cSt addr v).1 = true ∧
    readOnlyTrace (sparkdexGetFactoryAddress dSt w).1 = true := by
  obtain ⟨so⟩ := sSt
  obtain ⟨fo⟩ := fSt
  obtain ⟨ko⟩ := kSt
  obtain ⟨co, cr⟩ := cSt
  obtain ⟨dr⟩ := dSt
  refine ⟨?_, ?_, ?_, ?_, ?_, ?_, ?_, ?_⟩ <;>
    first
    | (cases so <;> rfl)
    | (cases fo <;> rfl)
    | (cases ko <;> rfl)
    | (cases co <;> rfl)
    | (cases dr <;> rfl)

/-- C6: `build_transaction` with no account credential configured
(spec-modelled, `flare.py` is absent from the sources) fails with a
`TxBuildError` and its RPC trace is empty, so in particular no
state-changing RPC request is issued. -/
theorem C6_no_credential_fails_without_rpc (sender : String) (n g : Nat) :
    (buildTransaction none sender n g).2 =
      .error (.txBuildError "Account private key not configured") ∧
    (buildTransaction none sender n g).1 = [] :=
  ⟨rfl, rfl⟩

/-- An external-outcome record in which both Chain Client primitives
succeed, with the nominal write-pipeline RPC traces. -/
def extOk : TxExt where
  build := .ok (some ⟨"0xSender", 7, 21000⟩)
  send := .ok (some "0xhash")
  buildFx := [.getTransactionCount, .estimateGas]
  sendFx := [.signTx, .sendRawTransaction]

/-- C8 counterexample: a public SparkDEX write method invoked on an
instance whose router handle is unset exits with the Python built-in
`AttributeError` — a generic, untagged error on a public error path,
contradicting the claim that public methods only raise protocol-tagged
errors. -/
theorem C8_counterexample :
    (sparkdexSwapExactInputSingle {} (some "0xAcc") extOk).2 =
      .error (.attributeError
        "SparkDEX instance not fully initialized. Use SparkDEX.create().") ∧
    PyError.isTagged (.attributeError
        "SparkDEX instance not fully initialized. Use SparkDEX.create().") = false :=
  ⟨rfl, rfl⟩

/-- The Chain Client primitives in `ext` only fail with library-tagged
errors (the spec taxonomy: `RpcError`, `TxBuildError`, `TxSendError`,
`FlareTxError`). -/
def TxExt.Tagged (ext : TxExt) : Prop :=
  (∀ e, ext.build = .error e → e.isTagged = true) ∧
  (∀ e, ext.send = .error e → e.isTagged = true)

/-- The outcome is a returned value or a library-tagged error. -/
def okOrTagged {α : Type} : Except PyError α → Prop
  | .ok _ => True
  | .error e => e.isTagged = true

/-- C8 amended: provided the Chain Client primitives themselves fail only
with library-tagged errors, every embedded public connector method
returns a decoded value / transaction hash or raises a tagged error —
except the SparkDEX guard paths, which raise the Python built-ins
`AttributeError` (router handle unset) and `ValueError` (account unset)
instead of a tagged error. -/
theorem C8_amended_tagged_errors (sSt : SceptreState) (kSt : KineticState)
    (cSt : CycloState) (fSt : FirelightState) (dSt : SparkDEXState)
    (amt : Int) (addr recipient : String) (v : Int) (n : Nat)
    (acct : Option String) (ext : TxExt) (send : Except PyError String)
    (fx : List Effect) (hext : ext.Tagged)
    (hsend : ∀ e, send = .error e → e.isTagged = true) :
    okOrTagged (sceptreStakeFlr sSt amt ext).2 ∧
    okOrTagged (kineticSupply kSt amt ext).2 ∧
    okOrTagged (cycloDepositSflr cSt amt recipient ext).2 ∧
    okOrTagged (firelightStakeXrp fSt amt n send fx).2 ∧
    okOrTagged (sceptreGetSflrBalance sSt addr v).2 ∧
    okOrTagged (kineticGetBalance kSt addr v).2 ∧
    okOrTagged (cycloGetCysflrBalance cSt addr v).2 ∧
    okOrTagged (firelightGetStxrpBalance fSt addr v).2 ∧
    (∀ s t, okOrTagged (getOftAddress s t)) ∧
    (∀ c, okOrTagged (getChainEndpoint c)) ∧
    ((dSt.swap_router ≠ none ∧ optStrFalsy acct = false) →
      okOrTagged (sparkdexSwapExactInputSingle dSt acct ext).2) := by
  obtain ⟨hb, hs⟩ := hext
  refine ⟨?_, ?_, ?_, ?_, ?_, ?_, ?_, ?_, ?_, ?_, ?_⟩
  · unfold sceptreStakeFlr
    cases sSt.sflr_contract
    · trivial
    · cases hbe : ext.build with
      | error e => exact hb e hbe
      | ok o =>
        cases o
        · trivial
        · cases hse : ext.send with
          | error e => exact hs e hse
          | ok o2 => cases o2 <;> trivial
  · unfold kineticSupply
    cases kSt.ksflr_contract
    · trivial
    · cases hbe : ext.build with
      | error e => exact hb e hbe
      | ok o =>
        cases o
        · trivial
        · cases hse : ext.send with
          | error e => exact hs e hse
          | ok o2 => cases o2 <;> trivial
  · unfold cycloDepositSflr
    cases cSt.vault_contract
    · trivial
    · cases ext.build with
      | error e => trivial
      | ok o =>
        cases o
        · trivial
        · cases ext.send with
          | error e => trivial
          | ok o2 => cases o2 <;> trivial
  · unfold firelightStakeXrp
    cases fSt.vault_contract
    · trivial
    · cases hse : send with
      | error e => exact hsend e hse
      | ok h => trivial
  · unfold sceptreGetSflrBalance
    cases sSt.sflr_contract <;> trivial
  · unfold kineticGetBalance
    cases kSt.ksflr_contract <;> trivial
  · unfold cycloGetCysflrBalance
    cases cSt.vault_contract <;> trivial
  · unfold firelightGetStxrpBalance
    cases fSt.vault_contract <;> trivial
  · intro s t
    by_cases h1 : strUpper t = "ETH"
    · simp [getOftAddress, h1, okOrTagged]
    · by_cases h2 : strUpper t = "USDC"
      · simp [getOftAddress, h1, h2, okOrTagged]
      · by_cases h3 : strUpper t = "USDT"
        · simp [getOftAddress, h1, h2, h3, okOrTagged]
        · simp [getOftAddress, h1, h2, h3, okOrTagged, PyError.isTagged]
  · intro c
    cases hc : CHAINS.lookup (strLower c) with
    | some e => simp [getChainEndpoint, hc, okOrTagged]
    | none => simp [getChainEndpoint, hc, okOrTagged, PyError.isTagged]
  · rintro ⟨hr, ha⟩
    unfold sparkdexSwapExactInputSingle
    cases hdr : dSt.swap_router with
    | none => exact absurd hdr hr
    | some r =>
      simp only [ha, Bool.false_eq_true, if_false, ite_false]
      cases hbe : ext.build with
      | error e => exact hb e hbe
      | ok o =>
        cases o
        · trivial
        · cases hse : ext.send with
          | error e => exact hs e hse
          | ok o2 => cases o2 <;> trivial

/-- A Sceptre instance as produced by `Sceptre.create`. -/
def sceptreInit : SceptreState :=
  { sflr_contract := some ⟨SFLR_CONTRACT, "SceptreSFLR"⟩ }

/-- C8 witness: with initialized instances and succeeding Chain Client
primitives, the amended statement yields tagged-or-ok outcomes at a
concrete input. -/
theorem C8_witness :
    okOrTagged (sceptreStakeFlr sceptreInit 5 extOk).2 ∧
    okOrTagged (getOftAddress mainnetSettings "ETH") :=
  have h := C8_amended_tagged_errors sceptreInit {} {} {} {} 5 "0xAddr" "0xRcpt" 0 7
    (some "0xAcc") extOk (.ok "0xhash") []
    ⟨fun e he => (by cases he), fun e he => (by cases he)⟩
    (fun e he => by cases he)
  ⟨h.1, h.2.2.2.2.2.2.2.2.1 mainnetSettings "ETH"⟩

/-- C10 counterexample: on a SparkDEX instance whose router handle is
`None`, the public swap method raises the Python built-in
`AttributeError`, not the connector protocol error (`FlareTxError`) —
so not every connector operation on an uninitialized instance raises that
connector's protocol error. -/
theorem C10_counterexample :
    ¬ ∃ m, (sparkdexSwapExactInputSingle {} (some "0xAcc") extOk).2 =
        .error (.flareTxError m) := by
  rintro ⟨m, hm⟩
  rw [show (sparkdexSwapExactInputSingle {} (some "0xAcc") extOk).2 =
      .error (.attributeError
        "SparkDEX instance not fully initialized. Use SparkDEX.create().") from rfl] at hm
  cases hm

/-- C10 amended: every embedded connector operation invoked on an
instance whose contract handle is `None` fails before any network
interaction — the RPC trace is empty — with a "not initialized" error:
the connector protocol error for Sceptre, Kinetic, Cyclo and Firelight,
but the Python built-in `AttributeError` for SparkDEX. -/
theorem C10_amended_uninit_guards (amt : Int) (addr recipient : String)
    (v : Int) (n : Nat) (acct : Option String) (ext : TxExt)
    (send : Except PyError String) (fx : List Effect) :
    sceptreStakeFlr {} amt ext =
      ([], .error (.sceptreError "Sceptre contract not initialized")) ∧
    kineticSupply {} amt ext =
      ([], .error (.kineticError "Kinetic contract not initialized")) ∧
    cycloDepositSflr {} amt recipient ext =
      ([], .error (.cycloError "Cyclo vault contract not initialized")) ∧
    firelightStakeXrp {} amt n send fx =
      ([], .error (.firelightError "Firelight vault contract not initialized")) ∧
    sparkdexSwapExactInputSingle {} acct ext =
      ([], .error (.attributeError
        "SparkDEX instance not fully initialized. Use SparkDEX.create().")) ∧
    sceptreGetSflrBalance {} addr v =
      ([], .error (.sceptreError "Sceptre contract not initialized")) ∧
    kineticGetBalance {} addr v =
      ([], .error (.kineticError "Kinetic contract not initialized")) ∧
    cycloGetCysflrBalance {} addr v =
      ([], .error (.cycloError "Cyclo vault contract not initialized")) ∧
    firelightGetStxrpBalance {} addr v =
      ([], .error (.firelightError "Firelight vault contract not initialized")) :=
  ⟨rfl, rfl, rfl, rfl, rfl, rfl, rfl, rfl, rfl⟩
